import Mathlib

/-!
Verification of the feature-store metadata maintenance utility
(`scripts/cleanup_old_metadata.py`) and the connection fixtures of the
integration tests.

The embedding models:
  * parsed JSON tag values (`JValue`, `Metadata`);
  * the per-record shape check inside `find_bad_feature_views`
    (`classifyRecord`, `isFlagged`);
  * the scan loop of `find_bad_feature_views` with its per-object
    try/except (`scanStep`, `find_bad_feature_views`);
  * the deletion loop `drop_feature_views` with its per-object
    try/except (`dropStep`, `drop_feature_views`);
  * the command-line driver `main` (`mainRun`);
  * the environment-driven connection construction `get_connection`
    and the pytest fixture `snowflake_session`
    (`get_connection`, `snowflake_session_params`).

External effects (cursor queries, exceptions) are modelled by explicit
`Except`-valued oracles passed in as functions; the lists of issued DROP
statements and logged errors are the observable effect traces.
-/

/-- A parsed JSON value, as produced by `json.loads`. -/
inductive JValue where
  | null
  | bool (b : Bool)
  | num (n : Int)
  | str (s : String)
  | arr (elems : List JValue)
  | obj (fields : List (String × JValue))

/-- A parsed metadata record: the key/value mapping decoded from the
`SNOWML_FEATURE_VIEW_METADATA` tag value. -/
abbrev Metadata : Type := List (String × JValue)

/-- Python `dict.get(key, default)` on a parsed mapping. -/
def getD (m : Metadata) (key : String) (dflt : JValue) : JValue :=
  match m.find? (fun kv => kv.fst == key) with
  | some kv => kv.snd
  | none => dflt

/-- Python `key in d` membership test on a parsed object. -/
def hasKey (fields : List (String × JValue)) (key : String) : Bool :=
  fields.any (fun kv => kv.fst == key)

/-- Outcome of the shape check that `find_bad_feature_views` performs on one
metadata record.  `oldFormatBad` is the branch that prints the BAD report and
appends to `bad_objects` (first entity is a string); `newFormatOk` is the
explicit `pass` branch (first entity is a dict containing `joinKeys`); every
other record silently takes no branch (`fallThrough`). -/
inductive ScanClass where
  | oldFormatBad
  | newFormatOk
  | fallThrough
deriving DecidableEq

/-- The guard `if entities and isinstance(entities, list):` of
`find_bad_feature_views`: true exactly when `metadata.get('entities', [])`
is a non-empty list. -/
def entitiesGuard (m : Metadata) : Bool :=
  match getD m ("entities") (JValue.arr []) with
  | JValue.arr (_ :: _) => true
  | _ => false

/-- The per-record branching of `find_bad_feature_views` (lines 65-85 of
`scripts/cleanup_old_metadata.py`): take `entities = metadata.get('entities', [])`;
when it is a truthy list, branch on `entities[0]`: a string is the flagged
OLD FORMAT, a dict with `joinKeys` is the accepted NEW FORMAT, and anything
else falls through with no action. -/
def classifyRecord (m : Metadata) : ScanClass :=
  match getD m ("entities") (JValue.arr []) with
  | JValue.arr (first :: _) =>
    match first with
    | JValue.str _ => ScanClass.oldFormatBad
    | JValue.obj fields =>
      if hasKey fields ("joinKeys") then ScanClass.newFormatOk
      else ScanClass.fallThrough
    | _ => ScanClass.fallThrough
  | _ => ScanClass.fallThrough

/-- Whether `find_bad_feature_views` appends the owning object to
`bad_objects` for this record. -/
def isFlagged (m : Metadata) : Bool :=
  classifyRecord m == ScanClass.oldFormatBad

/-- One row of the `TAG_REFERENCES` listing: the owning object of a
feature-view metadata tag. -/
structure FVObject where
  database : String
  schema : String
  name : String
  domain : String
deriving DecidableEq

/-- Observable outcome of the scan loop: the objects the loop iterated over,
the `bad_objects` accumulator, and the per-object errors logged by the
`except` clause (each with the failing object's identity). -/
structure ScanResult where
  checked : List FVObject
  badObjects : List FVObject
  errors : List (FVObject × String)
deriving DecidableEq

/-- One iteration of the scan loop body, inside its try/except.  The oracle
`inspect` models the metadata query for one object: `Except.error e` is an
exception raised while inspecting (caught and logged), `Except.ok none` is an
empty result set (`if rows:` false), `Except.ok (some m)` is a parsed record. -/
def scanStep (inspect : FVObject → Except String (Option Metadata))
    (acc : ScanResult) (obj : FVObject) : ScanResult :=
  match inspect obj with
  | Except.error e =>
    { acc with checked := acc.checked ++ [obj], errors := acc.errors ++ [(obj, e)] }
  | Except.ok none =>
    { acc with checked := acc.checked ++ [obj] }
  | Except.ok (some m) =>
    if isFlagged m then
      { acc with checked := acc.checked ++ [obj], badObjects := acc.badObjects ++ [obj] }
    else
      { acc with checked := acc.checked ++ [obj] }

/-- The scan `find_bad_feature_views`: fold the loop body over the listed
objects, starting from empty accumulators. -/
def find_bad_feature_views (objects : List FVObject)
    (inspect : FVObject → Except String (Option Metadata)) : ScanResult :=
  objects.foldl (scanStep inspect) ⟨[], [], []⟩

/-- `f"{obj['database']}.{obj['schema']}.{obj['name']}"`. -/
def fullName (obj : FVObject) : String :=
  obj.database ++ (".") ++ obj.schema ++ (".") ++ obj.name

/-- `'DYNAMIC TABLE' if obj['type'] == 'TABLE' else 'VIEW'`. -/
def objType (obj : FVObject) : String :=
  if obj.domain = ("TABLE") then ("DYNAMIC TABLE") else ("VIEW")

/-- The SQL text issued for one object by `drop_feature_views`. -/
def dropStatement (obj : FVObject) : String :=
  ("DROP ") ++ objType obj ++ (" IF EXISTS ") ++ fullName obj

/-- Observable outcome of the deletion loop: the DROP statements issued, in
order, and the per-object errors logged by the `except` clause. -/
structure DropResult where
  statements : List String
  errors : List (FVObject × String)
deriving DecidableEq

/-- One iteration of the deletion loop body.  The oracle `execDrop` models
`cursor.execute` of the DROP statement: the statement is issued either way,
and a raised exception is caught and logged. -/
def dropStep (execDrop : FVObject → Except String Unit)
    (acc : DropResult) (obj : FVObject) : DropResult :=
  match execDrop obj with
  | Except.ok _ =>
    { acc with statements := acc.statements ++ [dropStatement obj] }
  | Except.error e =>
    { acc with statements := acc.statements ++ [dropStatement obj],
               errors := acc.errors ++ [(obj, e)] }

/-- The deletion pass `drop_feature_views`: fold the loop body over the
flagged objects. -/
def drop_feature_views (badObjects : List FVObject)
    (execDrop : FVObject → Except String Unit) : DropResult :=
  badObjects.foldl (dropStep execDrop) ⟨[], []⟩

/-- Observable outcome of one invocation of `main`.  `usageError` is
`parser.error` (usage text on standard error, exit code 2, nothing else runs). -/
structure RunResult where
  usageError : Bool
  exitCode : Nat
  checked : List FVObject
  badReported : List FVObject
  scanErrors : List (FVObject × String)
  dropStatements : List String
  dropErrors : List (FVObject × String)
deriving DecidableEq

/-- The driver `main`: `parser.error` when neither `--check` nor `--drop` is
supplied; otherwise scan, and run the deletion pass exactly when the scan
found bad objects and `--drop` was supplied. -/
def mainRun (check drop : Bool) (objects : List FVObject)
    (inspect : FVObject → Except String (Option Metadata))
    (execDrop : FVObject → Except String Unit) : RunResult :=
  if !check && !drop then
    { usageError := true, exitCode := 2, checked := [], badReported := [],
      scanErrors := [], dropStatements := [], dropErrors := [] }
  else
    let scan := find_bad_feature_views objects inspect
    let dropRes :=
      if !scan.badObjects.isEmpty && drop then
        drop_feature_views scan.badObjects execDrop
      else ⟨[], []⟩
    { usageError := false, exitCode := 0, checked := scan.checked,
      badReported := scan.badObjects, scanErrors := scan.errors,
      dropStatements := dropRes.statements, dropErrors := dropRes.errors }

/-- The keyword arguments passed to `snowflake.connector.connect` by
`get_connection`; `none` models passing Python `None`. -/
structure ConnectArgs where
  account : Option String
  user : Option String
  password : Option String
  role : Option String
  warehouse : Option String
  database : Option String
deriving DecidableEq

/-- `get_connection` of `scripts/cleanup_old_metadata.py`: every parameter is
`os.environ.get(var)` (so `None` when unset), except `database`, which is
`os.environ.get('SNOWFLAKE_DATABASE', 'rsureshbabu')`. -/
def get_connection (env : String → Option String) : ConnectArgs :=
  { account := env ("SNOWFLAKE_ACCOUNT")
    user := env ("SNOWFLAKE_USER")
    password := env ("SNOWFLAKE_PASSWORD")
    role := env ("SNOWFLAKE_ROLE")
    warehouse := env ("SNOWFLAKE_WAREHOUSE")
    database := some ((env ("SNOWFLAKE_DATABASE")).getD ("rsureshbabu")) }

/-- `{k: v for k, v in d.items() if v is not None}`: drop the entries whose
value is `None`. -/
def omitNone (kvs : List (String × Option String)) : List (String × String) :=
  kvs.filterMap (fun kv =>
    match kv.snd with
    | some v => some (kv.fst, v)
    | none => none)

/-- The `connection_params` built by the `snowflake_session` fixture of
`test_feature_store_api.py`: environment lookups (with a default only for
`schema`), then the `None`-valued entries are filtered out. -/
def snowflake_session_params (env : String → Option String) :
    List (String × String) :=
  omitNone
    [(("account"), env ("SNOWFLAKE_ACCOUNT")),
     (("user"), env ("SNOWFLAKE_USER")),
     (("password"), env ("SNOWFLAKE_PASSWORD")),
     (("role"), env ("SNOWFLAKE_ROLE")),
     (("warehouse"), env ("SNOWFLAKE_WAREHOUSE")),
     (("database"), env ("SNOWFLAKE_DATABASE")),
     (("schema"), some ((env ("SNOWFLAKE_SCHEMA")).getD ("FEATURE_STORE")))]

/-- Scenario A record: `{"entities": ["TEST_CUSTOMER_ENTITY"], "timestamp_col": "UPDATED_AT"}`. -/
def mC1 : Metadata :=
  [(("entities"), JValue.arr [JValue.str ("TEST_CUSTOMER_ENTITY")]),
   (("timestamp_col"), JValue.str ("UPDATED_AT"))]

/-- A concrete feature view owning the Scenario A record. -/
def oC1 : FVObject :=
  { database := "RSURESHBABU", schema := "FEATURE_STORE",
    name := "FV_A", domain := "TABLE" }

/-- Scenario B record: entities as one object with `name` and `joinKeys`. -/
def mC2 : Metadata :=
  [(("entities"),
    JValue.arr [JValue.obj
      [(("name"), JValue.str ("TEST_CUSTOMER_ENTITY")),
       (("joinKeys"), JValue.arr [JValue.str ("CUSTOMER_ID")])]]),
   (("timestamp_col"), JValue.str ("UPDATED_AT"))]

/-- A concrete feature view owning the Scenario B record. -/
def oC2 : FVObject :=
  { database := "RSURESHBABU", schema := "FEATURE_STORE",
    name := "FV_B", domain := "VIEW" }

/-- Scenario D record: `{"entities": [], "timestamp_col": "T"}`. -/
def mC3 : Metadata :=
  [(("entities"), JValue.arr []), (("timestamp_col"), JValue.str ("T"))]

/-- Scenario C record: entities as one object with `name` only. -/
def mC3b : Metadata :=
  [(("entities"), JValue.arr [JValue.obj [(("name"), JValue.str ("X"))]]),
   (("timestamp_col"), JValue.str ("T"))]

/-- A concrete feature view owning the Scenario D record. -/
def oC3 : FVObject :=
  { database := "RSURESHBABU", schema := "FEATURE_STORE",
    name := "FV_D", domain := "TABLE" }

/-- Scenario C record: entities as one object with `name` only, no `joinKeys`. -/
def mC4a : Metadata :=
  [(("entities"), JValue.arr [JValue.obj [(("name"), JValue.str ("X"))]]),
   (("timestamp_col"), JValue.str ("T"))]

/-- A record shaped like Scenario C but with `joinKeys` present. -/
def mC4b : Metadata :=
  [(("entities"),
    JValue.arr [JValue.obj
      [(("name"), JValue.str ("X")), (("joinKeys"), JValue.arr [JValue.str ("K")])]]),
   (("timestamp_col"), JValue.str ("T"))]

/-- A concrete feature view owning the `mC4a` record. -/
def oC4 : FVObject :=
  { database := "RSURESHBABU", schema := "FEATURE_STORE",
    name := "FV_C1", domain := "TABLE" }

/-- A concrete feature view owning the `mC4b` record. -/
def oC4b : FVObject :=
  { database := "RSURESHBABU", schema := "FEATURE_STORE",
    name := "FV_C2", domain := "VIEW" }

/-- A conforming-shape record (string entity) for the Scenario E store. -/
def mStrC5 : Metadata :=
  [(("entities"), JValue.arr [JValue.str ("TEST_CUSTOMER_ENTITY")]),
   (("timestamp_col"), JValue.str ("UPDATED_AT"))]

/-- A legacy-shape record (object entity with `name` and `joinKeys`) for the
Scenario E store. -/
def mObjC5 : Metadata :=
  [(("entities"),
    JValue.arr [JValue.obj
      [(("name"), JValue.str ("TEST_CUSTOMER_ENTITY")),
       (("joinKeys"), JValue.arr [JValue.str ("CUSTOMER_ID")])]]),
   (("timestamp_col"), JValue.str ("UPDATED_AT"))]

/-- The object of the Scenario E store that carries the legacy-shape record. -/
def oLegacyC5 : FVObject :=
  { database := "RSURESHBABU", schema := "FEATURE_STORE",
    name := "FV_LEGACY", domain := "VIEW" }

/-- The object of the Scenario E store that carries the conforming-shape record. -/
def oConfC5 : FVObject :=
  { database := "RSURESHBABU", schema := "FEATURE_STORE",
    name := "FV_CONFORMING", domain := "TABLE" }

/-- The metadata oracle of the Scenario E store. -/
def inspectC5 : FVObject → Except String (Option Metadata) :=
  fun o => if o = oLegacyC5 then Except.ok (some mObjC5) else Except.ok (some mStrC5)

/-- An object with an old-format (string entity) record, used to exercise a
run that supplies both command-line flags. -/
def oC6 : FVObject :=
  { database := "RSURESHBABU", schema := "FEATURE_STORE",
    name := "FV_BOTH_FLAGS", domain := "TABLE" }

/-- An old-format record for the both-flags run. -/
def mC6 : Metadata :=
  [(("entities"), JValue.arr [JValue.str ("E1")]),
   (("timestamp_col"), JValue.str ("T"))]

/-- First object of the continue-on-error store: its inspection and its
deletion both raise. -/
def oC7a : FVObject :=
  { database := "RSURESHBABU", schema := "FEATURE_STORE",
    name := "FV_FAILING", domain := "TABLE" }

/-- Second object of the continue-on-error store: processed after the failure. -/
def oC7b : FVObject :=
  { database := "RSURESHBABU", schema := "FEATURE_STORE",
    name := "FV_AFTER", domain := "VIEW" }

/-- Metadata oracle that raises on `oC7a` and succeeds on every other object. -/
def inspectC7 : FVObject → Except String (Option Metadata) :=
  fun o => if o = oC7a then Except.error ("boom") else Except.ok none

/-- Deletion oracle that raises on `oC7a` and succeeds on every other object. -/
def execDropC7 : FVObject → Except String Unit :=
  fun o => if o = oC7a then Except.error ("kaboom") else Except.ok ()

/-- A record whose entities list has a string head and a string tail. -/
def mC9a : Metadata :=
  [(("entities"), JValue.arr [JValue.str ("A"), JValue.str ("B")])]

/-- A record with the same head as `mC9a` but an object in the tail. -/
def mC9b : Metadata :=
  [(("entities"), JValue.arr [JValue.str ("A"), JValue.obj []])]

/-- The scan loop body always records the visited object, whatever the
inspection outcome. -/
theorem scanStep_checked (inspect : FVObject → Except String (Option Metadata))
    (acc : ScanResult) (obj : FVObject) :
    (scanStep inspect acc obj).checked = acc.checked ++ [obj] := by
  unfold scanStep
  rcases inspect obj with e | mo
  · rfl
  · rcases mo with _ | m
    · rfl
    · dsimp only
      split <;> rfl

/-- The scan loop visits every listed object, in order. -/
theorem scan_checked (inspect : FVObject → Except String (Option Metadata)) :
    ∀ (objects : List FVObject) (acc : ScanResult),
      (objects.foldl (scanStep inspect) acc).checked = acc.checked ++ objects := by
  intro objects
  induction objects with
  | nil => intro acc; simp
  | cons o rest ih =>
    intro acc
    rw [List.foldl_cons, ih, scanStep_checked]
    simp

/-- The scan loop body never discards an already-logged error. -/
theorem scanStep_errors_mono (inspect : FVObject → Except String (Option Metadata))
    (acc : ScanResult) (obj : FVObject) (p : FVObject × String)
    (h : p ∈ acc.errors) : p ∈ (scanStep inspect acc obj).errors := by
  unfold scanStep
  rcases inspect obj with e | mo
  · exact List.mem_append_left _ h
  · rcases mo with _ | m
    · exact h
    · dsimp only
      split
      · exact h
      · exact h

/-- The scan loop never discards an already-logged error. -/
theorem scan_errors_mono (inspect : FVObject → Except String (Option Metadata)) :
    ∀ (objects : List FVObject) (acc : ScanResult) (p : FVObject × String),
      p ∈ acc.errors → p ∈ (objects.foldl (scanStep inspect) acc).errors := by
  intro objects
  induction objects with
  | nil => intro acc p h; exact h
  | cons o rest ih =>
    intro acc p h
    rw [List.foldl_cons]
    exact ih _ _ (scanStep_errors_mono inspect acc o p h)

/-- An inspection failure on any listed object is logged with that object's
identity, wherever it sits in the list. -/
theorem scan_errors_mem (inspect : FVObject → Except String (Option Metadata)) :
    ∀ (objects : List FVObject) (acc : ScanResult) (obj : FVObject) (e : String),
      obj ∈ objects → inspect obj = Except.error e →
      (obj, e) ∈ (objects.foldl (scanStep inspect) acc).errors := by
  intro objects
  induction objects with
  | nil =>
    intro acc obj e hmem _
    exact absurd hmem (List.not_mem_nil _)
  | cons o rest ih =>
    intro acc obj e hmem herr
    rw [List.foldl_cons]
    rcases List.mem_cons.mp hmem with heq | htail
    · subst heq
      apply scan_errors_mono
      unfold scanStep
      rw [herr]
      simp
    · exact ih _ _ _ htail herr

/-- The deletion loop body issues the object's DROP statement whether or not
the execution raises. -/
theorem dropStep_statements (execDrop : FVObject → Except String Unit)
    (acc : DropResult) (obj : FVObject) :
    (dropStep execDrop acc obj).statements = acc.statements ++ [dropStatement obj] := by
  unfold dropStep
  rcases execDrop obj with e | u
  · rfl
  · rfl

/-- The deletion loop issues exactly one DROP statement per listed object,
in order. -/
theorem drop_statements_eq (execDrop : FVObject → Except String Unit) :
    ∀ (bad : List FVObject) (acc : DropResult),
      (bad.foldl (dropStep execDrop) acc).statements =
        acc.statements ++ bad.map dropStatement := by
  intro bad
  induction bad with
  | nil => intro acc; simp
  | cons o rest ih =>
    intro acc
    rw [List.foldl_cons, ih, dropStep_statements]
    simp

/-- The deletion loop body never discards an already-logged error. -/
theorem dropStep_errors_mono (execDrop : FVObject → Except String Unit)
    (acc : DropResult) (obj : FVObject) (p : FVObject × String)
    (h : p ∈ acc.errors) : p ∈ (dropStep execDrop acc obj).errors := by
  unfold dropStep
  rcases execDrop obj with e | u
  · exact List.mem_append_left _ h
  · exact h

/-- The deletion loop never discards an already-logged error. -/
theorem drop_errors_mono (execDrop : FVObject → Except String Unit) :
    ∀ (bad : List FVObject) (acc : DropResult) (p : FVObject × String),
      p ∈ acc.errors → p ∈ (bad.foldl (dropStep execDrop) acc).errors := by
  intro bad
  induction bad with
  | nil => intro acc p h; exact h
  | cons o rest ih =>
    intro acc p h
    rw [List.foldl_cons]
    exact ih _ _ (dropStep_errors_mono execDrop acc o p h)

/-- A deletion failure on any listed object is logged with that object's
identity, wherever it sits in the list. -/
theorem drop_errors_mem (execDrop : FVObject → Except String Unit) :
    ∀ (bad : List FVObject) (acc : DropResult) (obj : FVObject) (e : String),
      obj ∈ bad → execDrop obj = Except.error e →
      (obj, e) ∈ (bad.foldl (dropStep execDrop) acc).errors := by
  intro bad
  induction bad with
  | nil =>
    intro acc obj e hmem _
    exact absurd hmem (List.not_mem_nil _)
  | cons o rest ih =>
    intro acc obj e hmem herr
    rw [List.foldl_cons]
    rcases List.mem_cons.mp hmem with heq | htail
    · subst heq
      apply drop_errors_mono
      unfold dropStep
      rw [herr]
      simp
    · exact ih _ _ _ htail herr

/-- `dict.get` ignores a leading entry with a different key. -/
theorem getD_cons_ne (k key : String) (v : JValue) (m : Metadata) (d : JValue)
    (h : (k == key) = false) : getD ((k, v) :: m) key d = getD m key d := by
  unfold getD
  rw [List.find?_cons]
  simp [h]

/-- An entry of the filtered connection-parameter mapping comes from a
non-`None` entry of the unfiltered mapping. -/
theorem omitNone_mem_of (kvs : List (String × Option String)) (k v : String)
    (h : (k, v) ∈ omitNone kvs) : (k, some v) ∈ kvs := by
  induction kvs with
  | nil => simp [omitNone] at h
  | cons kv rest ih =>
    rcases kv with ⟨k0, ov⟩
    rcases ov with _ | v0
    · have h2 : (k, v) ∈ omitNone rest := h
      exact List.mem_cons_of_mem _ (ih h2)
    · have h2 : (k, v) ∈ (k0, v0) :: omitNone rest := h
      rcases List.mem_cons.mp h2 with heq | htail
      · rw [Prod.mk.injEq] at heq
        rw [heq.1, heq.2]
        exact List.mem_cons_self _ _
      · exact List.mem_cons_of_mem _ (ih htail)

/-- Claim C1 counterexample: the Scenario A record (entities as one uppercase
string) is NOT classified as conforming by the maintenance scan: the classifier
takes the OLD FORMAT branch, the owning object is reported bad, and under
`--drop` a DROP statement naming it is issued. -/
theorem c1_counterexample :
    classifyRecord mC1 = ScanClass.oldFormatBad ∧
    isFlagged mC1 = true ∧
    (find_bad_feature_views [oC1] (fun _ => Except.ok (some mC1))).badObjects = [oC1] ∧
    (mainRun false true [oC1] (fun _ => Except.ok (some mC1))
      (fun _ => Except.ok ())).dropStatements = [dropStatement oC1] := by
  refine ⟨rfl, rfl, rfl, rfl⟩

/-- Claim C1 (amended): every metadata record whose `entities` value is a
non-empty list headed by a string — in particular every record whose entities
are all uppercase strings — is classified OLD FORMAT by the maintenance scan:
the owning object is reported bad, and under `--drop` it is in the set of
objects a DROP statement is issued for. -/
theorem c1_amended_old_format_flagged (m : Metadata) (s : String)
    (rest : List JValue) (obj : FVObject)
    (hent : getD m ("entities") (JValue.arr []) = JValue.arr (JValue.str s :: rest)) :
    classifyRecord m = ScanClass.oldFormatBad ∧
    (find_bad_feature_views [obj] (fun _ => Except.ok (some m))).badObjects = [obj] ∧
    (mainRun false true [obj] (fun _ => Except.ok (some m))
      (fun _ => Except.ok ())).dropStatements = [dropStatement obj] := by
  have hc : classifyRecord m = ScanClass.oldFormatBad := by
    unfold classifyRecord
    rw [hent]
  have hf : isFlagged m = true := by
    unfold isFlagged
    rw [hc]
    rfl
  refine ⟨hc, ?_, ?_⟩
  · simp [find_bad_feature_views, scanStep, hf]
  · simp [mainRun, find_bad_feature_views, scanStep, hf, drop_feature_views, dropStep]

/-- Claim C1 witness: the amended statement instantiated at the Scenario A
record. -/
theorem c1_witness :
    getD mC1 ("entities") (JValue.arr []) =
      JValue.arr (JValue.str ("TEST_CUSTOMER_ENTITY") :: []) ∧
    (classifyRecord mC1 = ScanClass.oldFormatBad ∧
     (find_bad_feature_views [oC1] (fun _ => Except.ok (some mC1))).badObjects = [oC1] ∧
     (mainRun false true [oC1] (fun _ => Except.ok (some mC1))
       (fun _ => Except.ok ())).dropStatements = [dropStatement oC1]) :=
  ⟨rfl, c1_amended_old_format_flagged mC1 ("TEST_CUSTOMER_ENTITY") [] oC1 rfl⟩

/-- Claim C2 counterexample: the Scenario B record (entities as one object with
`name` and `joinKeys`) is NOT treated as non-conforming: the classifier takes
the explicit NEW FORMAT `pass` branch, the owning object is never put in the
bad partition, and no DROP statement is issued for it under `--drop`. -/
theorem c2_counterexample :
    classifyRecord mC2 = ScanClass.newFormatOk ∧
    isFlagged mC2 = false ∧
    (find_bad_feature_views [oC2] (fun _ => Except.ok (some mC2))).badObjects = [] ∧
    (mainRun false true [oC2] (fun _ => Except.ok (some mC2))
      (fun _ => Except.ok ())).dropStatements = [] := by
  refine ⟨rfl, rfl, rfl, rfl⟩

/-- Claim C2 (amended): every metadata record whose `entities` value is a
non-empty list headed by an object is accepted by the maintenance scan, never
flagged: with `joinKeys` present the explicit NEW FORMAT branch is taken, and
without it the record silently falls through; either way the owning object is
not in the bad partition and no DROP is issued for it under `--drop`. -/
theorem c2_amended_object_entities_unflagged (m : Metadata)
    (fields : List (String × JValue)) (rest : List JValue) (obj : FVObject)
    (hent : getD m ("entities") (JValue.arr []) = JValue.arr (JValue.obj fields :: rest)) :
    isFlagged m = false ∧
    classifyRecord m =
      (if hasKey fields ("joinKeys") then ScanClass.newFormatOk
       else ScanClass.fallThrough) ∧
    (find_bad_feature_views [obj] (fun _ => Except.ok (some m))).badObjects = [] ∧
    (mainRun false true [obj] (fun _ => Except.ok (some m))
      (fun _ => Except.ok ())).dropStatements = [] := by
  have hc : classifyRecord m =
      (if hasKey fields ("joinKeys") then ScanClass.newFormatOk
       else ScanClass.fallThrough) := by
    unfold classifyRecord
    rw [hent]
  have hf : isFlagged m = false := by
    unfold isFlagged
    rw [hc]
    cases hasKey fields ("joinKeys") <;> rfl
  refine ⟨hf, hc, ?_, ?_⟩
  · simp [find_bad_feature_views, scanStep, hf]
  · simp [mainRun, find_bad_feature_views, scanStep, hf]

/-- Claim C2 witness: the amended statement instantiated at the Scenario B
record. -/
theorem c2_witness :
    getD mC2 ("entities") (JValue.arr []) =
      JValue.arr (JValue.obj
        [(("name"), JValue.str ("TEST_CUSTOMER_ENTITY")),
         (("joinKeys"), JValue.arr [JValue.str ("CUSTOMER_ID")])] :: []) ∧
    (isFlagged mC2 = false ∧
     classifyRecord mC2 =
       (if hasKey
            [(("name"), JValue.str ("TEST_CUSTOMER_ENTITY")),
             (("joinKeys"), JValue.arr [JValue.str ("CUSTOMER_ID")])] ("joinKeys")
        then ScanClass.newFormatOk else ScanClass.fallThrough) ∧
     (find_bad_feature_views [oC2] (fun _ => Except.ok (some mC2))).badObjects = [] ∧
     (mainRun false true [oC2] (fun _ => Except.ok (some mC2))
       (fun _ => Except.ok ())).dropStatements = []) :=
  ⟨rfl, c2_amended_object_entities_unflagged mC2
    [(("name"), JValue.str ("TEST_CUSTOMER_ENTITY")),
     (("joinKeys"), JValue.arr [JValue.str ("CUSTOMER_ID")])] [] oC2 rfl⟩

/-- Claim C3 counterexample: the maintenance scan has no distinct MALFORMED
diagnostic.  The Scenario D record (empty `entities`) produces exactly the same
classifier outcome as the Scenario C record (which the claim says must be
LEGACY, not MALFORMED), and scanning the Scenario D record reports nothing at
all: the object is not flagged and no error is logged. -/
theorem c3_counterexample :
    classifyRecord mC3 = classifyRecord mC3b ∧
    classifyRecord mC3 = ScanClass.fallThrough ∧
    isFlagged mC3 = false ∧
    find_bad_feature_views [oC3] (fun _ => Except.ok (some mC3)) = ⟨[oC3], [], []⟩ := by
  refine ⟨rfl, rfl, rfl, rfl⟩

/-- Claim C3 (amended): when `entities` is absent, not a list, or empty, the
record is silently skipped, with no distinct diagnostic: it is not flagged, no
error is logged, and the scan continues (the object is still visited).
`timestamp_col` is never inspected: prepending any `timestamp_col` entry to a
record leaves the classification unchanged. -/
theorem c3_amended_no_malformed_diagnostic (m : Metadata) (tv : JValue)
    (obj : FVObject) (hguard : entitiesGuard m = false) :
    classifyRecord m = ScanClass.fallThrough ∧
    isFlagged m = false ∧
    find_bad_feature_views [obj] (fun _ => Except.ok (some m)) = ⟨[obj], [], []⟩ ∧
    classifyRecord ((("timestamp_col"), tv) :: m) = classifyRecord m := by
  have hc : classifyRecord m = ScanClass.fallThrough := by
    unfold classifyRecord
    cases hv : getD m ("entities") (JValue.arr []) with
    | null => rfl
    | bool b => rfl
    | num n => rfl
    | str s => rfl
    | arr elems =>
      cases elems with
      | nil => rfl
      | cons e es =>
        have htrue : entitiesGuard m = true := by
          unfold entitiesGuard
          rw [hv]
        rw [htrue] at hguard
        exact Bool.noConfusion hguard
    | obj fs => rfl
  have hf : isFlagged m = false := by
    unfold isFlagged
    rw [hc]
    rfl
  refine ⟨hc, hf, ?_, ?_⟩
  · simp [find_bad_feature_views, scanStep, hf]
  · have hget : getD ((("timestamp_col"), tv) :: m) ("entities") (JValue.arr []) =
        getD m ("entities") (JValue.arr []) :=
      getD_cons_ne ("timestamp_col") ("entities") tv m (JValue.arr []) (by decide)
    unfold classifyRecord
    rw [hget]

/-- Claim C3 witness: the amended statement instantiated at the Scenario D
record. -/
theorem c3_witness :
    entitiesGuard mC3 = false ∧
    (classifyRecord mC3 = ScanClass.fallThrough ∧
     isFlagged mC3 = false ∧
     find_bad_feature_views [oC3] (fun _ => Except.ok (some mC3)) = ⟨[oC3], [], []⟩ ∧
     classifyRecord ((("timestamp_col"), JValue.str ("T")) :: mC3) = classifyRecord mC3) :=
  ⟨rfl, c3_amended_no_malformed_diagnostic mC3 (JValue.str ("T")) oC3 rfl⟩

/-- Claim C4 counterexample: no sub-diagnostic is reported.  The Scenario C
record (object entity without `joinKeys`) silently falls through, and the
joinKeys-present variant takes the silent NEW FORMAT `pass` branch: in both
cases the scan flags nothing and logs nothing, so neither record yields a
LEGACY classification with a sub-diagnostic. -/
theorem c4_counterexample :
    classifyRecord mC4a = ScanClass.fallThrough ∧
    classifyRecord mC4b = ScanClass.newFormatOk ∧
    find_bad_feature_views [oC4] (fun _ => Except.ok (some mC4a)) = ⟨[oC4], [], []⟩ ∧
    find_bad_feature_views [oC4b] (fun _ => Except.ok (some mC4b)) = ⟨[oC4b], [], []⟩ := by
  refine ⟨rfl, rfl, rfl, rfl⟩

/-- Claim C4 (amended): for a record whose first entity is an object, the scan
does test membership of `joinKeys` in that object — totally, never raising on
its absence — but uses the test only to choose between the explicit NEW FORMAT
acceptance (present) and a silent fall-through (absent); it reports no
sub-diagnostic either way: the object is not flagged and no error is logged. -/
theorem c4_amended_joinkeys_checked_silently (m : Metadata)
    (fields : List (String × JValue)) (rest : List JValue) (obj : FVObject)
    (hent : getD m ("entities") (JValue.arr []) = JValue.arr (JValue.obj fields :: rest)) :
    classifyRecord m =
      (if hasKey fields ("joinKeys") then ScanClass.newFormatOk
       else ScanClass.fallThrough) ∧
    isFlagged m = false ∧
    (find_bad_feature_views [obj] (fun _ => Except.ok (some m))).badObjects = [] ∧
    (find_bad_feature_views [obj] (fun _ => Except.ok (some m))).errors = [] := by
  have hc : classifyRecord m =
      (if hasKey fields ("joinKeys") then ScanClass.newFormatOk
       else ScanClass.fallThrough) := by
    unfold classifyRecord
    rw [hent]
  have hf : isFlagged m = false := by
    unfold isFlagged
    rw [hc]
    cases hasKey fields ("joinKeys") <;> rfl
  refine ⟨hc, hf, ?_, ?_⟩
  · simp [find_bad_feature_views, scanStep, hf]
  · simp [find_bad_feature_views, scanStep, hf]

/-- Claim C4 witness: the amended statement instantiated at the Scenario C
record (object entity lacking `joinKeys`). -/
theorem c4_witness :
    getD mC4a ("entities") (JValue.arr []) =
      JValue.arr (JValue.obj [(("name"), JValue.str ("X"))] :: []) ∧
    (classifyRecord mC4a =
       (if hasKey [(("name"), JValue.str ("X"))] ("joinKeys")
        then ScanClass.newFormatOk else ScanClass.fallThrough) ∧
     isFlagged mC4a = false ∧
     (find_bad_feature_views [oC4] (fun _ => Except.ok (some mC4a))).badObjects = [] ∧
     (find_bad_feature_views [oC4] (fun _ => Except.ok (some mC4a))).errors = []) :=
  ⟨rfl, c4_amended_joinkeys_checked_silently mC4a
    [(("name"), JValue.str ("X"))] [] oC4 rfl⟩

/-- Claim C5 (confirmed): with `--check` and not `--drop`, the run issues no
DROP statement and logs no deletion error for any store and any oracles, and
exits 0; against the Scenario E store of one legacy-shape and one
conforming-shape object it reports exactly one bad object and issues zero
DROP statements. -/
theorem c5_check_mode_no_deletions :
    (∀ (objects : List FVObject)
       (inspect : FVObject → Except String (Option Metadata))
       (execDrop : FVObject → Except String Unit),
      (mainRun true false objects inspect execDrop).dropStatements = [] ∧
      (mainRun true false objects inspect execDrop).dropErrors = [] ∧
      (mainRun true false objects inspect execDrop).exitCode = 0) ∧
    (mainRun true false [oLegacyC5, oConfC5] inspectC5
      (fun _ => Except.ok ())).badReported = [oConfC5] ∧
    (mainRun true false [oLegacyC5, oConfC5] inspectC5
      (fun _ => Except.ok ())).dropStatements = [] := by
  refine ⟨fun objects inspect execDrop => ⟨?_, ?_, ?_⟩, rfl, rfl⟩
  · simp [mainRun]
  · simp [mainRun]
  · simp [mainRun]

/-- Claim C6 counterexample: supplying both `--check` and `--drop` is not a
usage error — the run proceeds (exit 0) and, on a store with one old-format
object, even issues a DROP statement. -/
theorem c6_counterexample :
    (mainRun true true [oC6] (fun _ => Except.ok (some mC6))
      (fun _ => Except.ok ())).usageError = false ∧
    (mainRun true true [oC6] (fun _ => Except.ok (some mC6))
      (fun _ => Except.ok ())).exitCode = 0 ∧
    (mainRun true true [oC6] (fun _ => Except.ok (some mC6))
      (fun _ => Except.ok ())).dropStatements = [dropStatement oC6] := by
  refine ⟨rfl, rfl, rfl⟩

/-- Claim C6 (amended): at least one of `--check`/`--drop` must be supplied:
the run is a usage error exactly when both are absent, in which case it exits
2 (usage reported to standard error) having scanned nothing, reported nothing
and issued no DROP statement; supplying both flags is accepted and proceeds. -/
theorem c6_amended_at_least_one_flag :
    ∀ (check drop : Bool) (objects : List FVObject)
      (inspect : FVObject → Except String (Option Metadata))
      (execDrop : FVObject → Except String Unit),
      (mainRun check drop objects inspect execDrop).usageError = (!check && !drop) ∧
      (mainRun check drop objects inspect execDrop).exitCode =
        (if !check && !drop then 2 else 0) ∧
      (mainRun false false objects inspect execDrop).checked = [] ∧
      (mainRun false false objects inspect execDrop).badReported = [] ∧
      (mainRun false false objects inspect execDrop).dropStatements = [] := by
  intro check drop objects inspect execDrop
  refine ⟨?_, ?_, rfl, rfl, rfl⟩
  · cases check <;> cases drop <;> simp [mainRun]
  · cases check <;> cases drop <;> simp [mainRun]

/-- Claim C7 (confirmed): continue-on-error.  An exception raised while
inspecting one object is caught and logged with that object's identity while
every listed object is still visited by the scan; an exception raised while
deleting one object is caught and logged with that object's identity while a
DROP statement is still issued for every flagged object. -/
theorem c7_continue_on_error (objects : List FVObject)
    (inspect : FVObject → Except String (Option Metadata))
    (bad : List FVObject) (execDrop : FVObject → Except String Unit)
    (obj1 obj2 : FVObject) (e1 e2 : String)
    (h1 : obj1 ∈ objects) (h2 : inspect obj1 = Except.error e1)
    (h3 : obj2 ∈ bad) (h4 : execDrop obj2 = Except.error e2) :
    (find_bad_feature_views objects inspect).checked = objects ∧
    (obj1, e1) ∈ (find_bad_feature_views objects inspect).errors ∧
    (drop_feature_views bad execDrop).statements = bad.map dropStatement ∧
    (obj2, e2) ∈ (drop_feature_views bad execDrop).errors := by
  refine ⟨?_, ?_, ?_, ?_⟩
  · rw [find_bad_feature_views, scan_checked]
    rfl
  · exact scan_errors_mem inspect objects ⟨[], [], []⟩ obj1 e1 h1 h2
  · rw [drop_feature_views, drop_statements_eq]
    rfl
  · exact drop_errors_mem execDrop bad ⟨[], []⟩ obj2 e2 h3 h4

/-- Claim C7 witness: a two-object store whose first object fails both
inspection and deletion; the second object is still checked and its DROP is
still issued, and both failures are logged with the failing object's identity. -/
theorem c7_witness :
    (find_bad_feature_views [oC7a, oC7b] inspectC7).checked = [oC7a, oC7b] ∧
    (oC7a, ("boom")) ∈ (find_bad_feature_views [oC7a, oC7b] inspectC7).errors ∧
    (drop_feature_views [oC7a, oC7b] execDropC7).statements =
      [oC7a, oC7b].map dropStatement ∧
    (oC7a, ("kaboom")) ∈ (drop_feature_views [oC7a, oC7b] execDropC7).errors :=
  c7_continue_on_error [oC7a, oC7b] inspectC7 [oC7a, oC7b] execDropC7
    oC7a oC7a ("boom") ("kaboom")
    (List.mem_cons_self _ _) rfl (List.mem_cons_self _ _) rfl

/-- Claim C8 counterexample: with `SNOWFLAKE_DATABASE` unset, `get_connection`
does not omit the catalog/database parameter — it substitutes the default
value `rsureshbabu`. -/
theorem c8_counterexample :
    (get_connection (fun _ => none)).database = some ("rsureshbabu") ∧
    (get_connection (fun _ => none)).database ≠ none :=
  ⟨rfl, Option.some_ne_none _⟩

/-- Claim C8 (amended): when `SNOWFLAKE_DATABASE` is unset, the maintenance
script's `get_connection` substitutes the default `rsureshbabu` for the
database parameter (the other parameters are passed through as `None`),
whereas the test fixture `snowflake_session` omits the database key from the
connection parameters entirely. -/
theorem c8_amended_database_defaulted (env : String → Option String)
    (h : env ("SNOWFLAKE_DATABASE") = none) :
    (get_connection env).database = some ("rsureshbabu") ∧
    (get_connection env).account = env ("SNOWFLAKE_ACCOUNT") ∧
    ("database") ∉ (snowflake_session_params env).map Prod.fst := by
  refine ⟨?_, rfl, ?_⟩
  · simp [get_connection, h]
  · intro hmem
    rcases List.mem_map.mp hmem with ⟨p, hp, hfst⟩
    rcases p with ⟨k, v⟩
    dsimp at hfst
    subst hfst
    have h2 := omitNone_mem_of _ _ _ hp
    simp +decide [snowflake_session_params, h] at h2

/-- Claim C8 witness: the amended statement instantiated at the empty
environment. -/
theorem c8_witness :
    ((fun _ => (none : Option String)) ("SNOWFLAKE_DATABASE") = none) ∧
    ((get_connection (fun _ => none)).database = some ("rsureshbabu") ∧
     (get_connection (fun _ => none)).account =
       (fun _ => (none : Option String)) ("SNOWFLAKE_ACCOUNT") ∧
     ("database") ∉ (snowflake_session_params (fun _ => none)).map Prod.fst) :=
  ⟨rfl, c8_amended_database_defaulted (fun _ => none) rfl⟩

/-- Claim C9 (confirmed): for records whose `entities` value is a non-empty
list, the scan's classification depends only on the first element: two records
whose `entities` lists share the same head, with arbitrary (possibly
different) tails, classify identically — elements past index 0 are never
inspected. -/
theorem c9_classification_depends_on_head (m m2 : Metadata) (e : JValue)
    (r r2 : List JValue)
    (h : getD m ("entities") (JValue.arr []) = JValue.arr (e :: r))
    (h2 : getD m2 ("entities") (JValue.arr []) = JValue.arr (e :: r2)) :
    classifyRecord m = classifyRecord m2 := by
  unfold classifyRecord
  rw [h, h2]

/-- Claim C9 witness: two records sharing the head `"A"` of their entities
lists, with a string tail in one and an object tail in the other, classify
identically. -/
theorem c9_witness :
    getD mC9a ("entities") (JValue.arr []) =
      JValue.arr (JValue.str ("A") :: [JValue.str ("B")]) ∧
    getD mC9b ("entities") (JValue.arr []) =
      JValue.arr (JValue.str ("A") :: [JValue.obj []]) ∧
    classifyRecord mC9a = classifyRecord mC9b :=
  ⟨rfl, rfl, c9_classification_depends_on_head mC9a mC9b (JValue.str ("A"))
    [JValue.str ("B")] [JValue.obj []] rfl rfl⟩

/-- Claim C10 (confirmed): under `--drop`, the deletion pass issues exactly
one DROP statement per object flagged by the preceding scan, in order, and no
other DROP statement: the statement text names the object and drops a
DYNAMIC TABLE when the recorded domain is `TABLE`, a VIEW otherwise. -/
theorem c10_drop_exactly_flagged :
    ∀ (check : Bool) (objects : List FVObject)
      (inspect : FVObject → Except String (Option Metadata))
      (execDrop : FVObject → Except String Unit),
      (mainRun check true objects inspect execDrop).dropStatements =
        ((find_bad_feature_views objects inspect).badObjects).map dropStatement ∧
      (∀ obj : FVObject, dropStatement obj =
        ("DROP ") ++
        (if obj.domain = ("TABLE") then ("DYNAMIC TABLE") else ("VIEW")) ++
        (" IF EXISTS ") ++
        (obj.database ++ (".") ++ obj.schema ++ (".") ++ obj.name)) := by
  intro check objects inspect execDrop
  refine ⟨?_, fun obj => rfl⟩
  cases hbad : (find_bad_feature_views objects inspect).badObjects with
  | nil => simp [mainRun, hbad]
  | cons b bs =>
    simp [mainRun, hbad, drop_feature_views, drop_statements_eq, dropStep_statements]
